import Mathlib

/-!
Verification of the Cart-to-Order Pricing and Lifecycle Engine of the
CO3095 takeaway system (`src/order_manager.py`, `src/storage.py`,
`src/models.py`, `src/payment_delivery_manager.py`).

Modelling conventions:
* Python `float` money values are embedded as exact rationals `ℚ`;
  `round(x, 2)` is embedded as round-half-even to 2 decimal places
  (`round2` below), `int(x)` as truncation toward zero (`pyInt`),
  `//` on integers as floor division (`Int.fdiv`).
* `Storage`'s dictionaries become association lists with value
  semantics; the JSON persistence layer is pure I/O and is omitted.
* Every call to `datetime.now()` is replaced by explicit parameters
  (`hour`, `day`, `nowMinutes`); timestamps stored on records
  (`created_at`, `updated_at`, history timestamps) are omitted since no
  verified property reads them, and `estimated_delivery_time`
  (`now + timedelta(minutes=m)`) is stored as the minute offset `m`.
* `uuid4` / `random` supplied identifiers become explicit parameters.
-/

namespace Takeaway

/-- Round-half-even of a rational to an integer, the idealisation of
Python 3 `round` applied to an exact decimal value. -/
def rhe (y : ℚ) : ℤ :=
  let f := ⌊y⌋
  if y - f < 1 / 2 then f
  else if 1 / 2 < y - f then f + 1
  else if f % 2 = 0 then f else f + 1

/-- Python `round(x, 2)`. -/
def round2 (x : ℚ) : ℚ := (rhe (x * 100) : ℚ) / 100

/-- Python `int(x)`: truncation toward zero. -/
def pyInt (q : ℚ) : ℤ := if 0 ≤ q then ⌊q⌋ else -⌊-q⌋

theorem rhe_of_int (y : ℚ) (n : ℤ) (h : y = (n : ℚ)) : rhe y = n := by
  subst h
  unfold rhe
  norm_num

/-- Evaluation rule for `round2` when the argument is an exact
2-decimal value. -/
theorem round2_of_int (x : ℚ) (n : ℤ) (h : x * 100 = (n : ℚ)) : round2 x = (n : ℚ) / 100 := by
  unfold round2
  rw [rhe_of_int _ n h]

theorem pyInt_of_int (q : ℚ) (n : ℤ) (h : q = (n : ℚ)) : pyInt q = n := by
  subst h
  unfold pyInt
  rcases le_or_lt 0 n with hn | hn
  · rw [if_pos (by exact_mod_cast hn), Int.floor_intCast]
  · have hc : (-(n : ℚ)) = ((-n : ℤ) : ℚ) := by push_cast; ring
    rw [if_neg (by exact_mod_cast hn.not_le), hc, Int.floor_intCast]
    omega

/-- Sum of a list of rationals (Python `sum(...)`, left fold from 0). -/
def qsum (l : List ℚ) : ℚ := l.foldl (· + ·) 0

/-- Python `str.upper()`, modelled character-wise. -/
def pyUpper (s : String) : String := ⟨s.data.map Char.toUpper⟩

/-- Python slicing `s[:n]`. -/
def strTake (s : String) (n : ℕ) : String := ⟨s.data.take n⟩

-- ==================== Enums (models.py) ====================

inductive SpiceLevel
  | none | mild | medium | hot | extraHot
deriving DecidableEq

inductive ItemSize
  | small | medium | large
deriving DecidableEq

inductive OrderStatus
  | pending | confirmed | preparing | ready | outForDelivery | delivered | cancelled
deriving DecidableEq

/-- `OrderStatus.value` strings from `models.py`. -/
def OrderStatus.value : OrderStatus → String
  | .pending => "pending"
  | .confirmed => "confirmed"
  | .preparing => "preparing"
  | .ready => "ready"
  | .outForDelivery => "out_for_delivery"
  | .delivered => "delivered"
  | .cancelled => "cancelled"

inductive DeliveryZone
  | zone1 | zone2 | zone3 | outOfRange
deriving DecidableEq

inductive DiscountType
  | percentage | fixedAmount | freeDelivery | bogo
deriving DecidableEq

-- ==================== Data classes (models.py) ====================

structure ItemCustomization where
  extras : List String := []
  removed_ingredients : List String := []
  spice_level : SpiceLevel := .medium
  size : ItemSize := .medium
deriving DecidableEq

structure ItemExtra where
  id : String
  price : ℚ
deriving DecidableEq

/-- One `AvailabilitySchedule` slot; times in minutes since midnight. -/
structure AvailabilitySchedule where
  day_of_week : ℤ
  start_time : ℤ
  end_time : ℤ
deriving DecidableEq

structure MenuItem where
  id : String
  name : String := ""
  price : ℚ := 0
  stock_quantity : ℤ := 100
  is_available : Bool := true
  extras : List ItemExtra := []
  size_prices : List (ItemSize × ℚ) := []
  availability_schedule : List AvailabilitySchedule := []
deriving DecidableEq

structure CartItem where
  id : String
  menu_item_id : String
  quantity : ℤ
  customization : ItemCustomization := {}
  unit_price : ℚ := 0
  line_total : ℚ := 0
  notes : String := ""
deriving DecidableEq

structure Cart where
  id : String
  customer_id : Option String := Option.none
  items : List CartItem := []
  subtotal : ℚ := 0
  discount_amount : ℚ := 0
  tax_amount : ℚ := 0
  delivery_fee : ℚ := 0
  tip_amount : ℚ := 0
  total : ℚ := 0
  discount_code : Option String := Option.none
deriving DecidableEq

structure DiscountCode where
  code : String
  discount_type : DiscountType := .percentage
  value : ℚ := 0
  min_order_amount : ℚ := 0
  max_discount_amount : Option ℚ := Option.none
  is_active : Bool := true
deriving DecidableEq

structure Address where
  delivery_zone : DeliveryZone := .zone1
deriving DecidableEq

structure OrderStatusHistory where
  status : OrderStatus
  notes : String := ""
deriving DecidableEq

/-- Customer reduced to the fields the engine reads:
`loyalty_points` is `customer.loyalty_points.total_points`. -/
structure Customer where
  id : String
  loyalty_points : ℤ := 0
deriving DecidableEq

structure Order where
  id : String
  order_number : String := ""
  customer_id : String := ""
  items : List CartItem := []
  delivery_address : Option Address := Option.none
  subtotal : ℚ := 0
  discount_amount : ℚ := 0
  tax_amount : ℚ := 0
  delivery_fee : ℚ := 0
  tip_amount : ℚ := 0
  total : ℚ := 0
  discount_code_used : Option String := Option.none
  loyalty_points_used : ℤ := 0
  status : OrderStatus := .pending
  status_history : List OrderStatusHistory := []
  payment_method : String := ""
  estimated_delivery_minutes : ℤ := 0
  actual_delivery_recorded : Bool := false
  cancellation_reason : String := ""
  refund_amount : ℚ := 0
deriving DecidableEq

-- ==================== Association-list storage (storage.py) ====================

/-- First-match lookup in an association list (Python dict `get`). -/
def alookup {V : Type} : List (String × V) → String → Option V
  | [], _ => Option.none
  | (k', v) :: rest, k => if k' = k then some v else alookup rest k

/-- Overwrite-or-append (Python dict assignment). -/
def aset {V : Type} : List (String × V) → String → V → List (String × V)
  | [], k, v => [(k, v)]
  | (k', v') :: rest, k, v =>
      if k' = k then (k', v) :: rest else (k', v') :: aset rest k v

/-- Key removal (Python `del`). -/
def adel {V : Type} : List (String × V) → String → List (String × V)
  | [], _ => []
  | (k', v') :: rest, k =>
      if k' = k then rest else (k', v') :: adel rest k

/-- In-memory state of `Storage`. `cancellation_logs` keeps, per customer,
the number of logged cancellations inside the trailing 30-day window
(the window filter itself is time I/O and is abstracted to this count). -/
structure Storage where
  menu_items : List (String × MenuItem) := []
  customers : List (String × Customer) := []
  orders : List (String × Order) := []
  carts : List (String × Cart) := []
  discount_codes : List (String × DiscountCode) := []
  cancellation_logs : List (String × ℕ) := []
deriving DecidableEq

def Storage.get_menu_item (st : Storage) (item_id : String) : Option MenuItem :=
  alookup st.menu_items item_id

def Storage.save_menu_item (st : Storage) (item : MenuItem) : Storage :=
  { st with menu_items := aset st.menu_items item.id item }

def Storage.get_customer (st : Storage) (customer_id : String) : Option Customer :=
  alookup st.customers customer_id

def Storage.save_customer (st : Storage) (c : Customer) : Storage :=
  { st with customers := aset st.customers c.id c }

def Storage.get_order (st : Storage) (order_id : String) : Option Order :=
  alookup st.orders order_id

def Storage.save_order (st : Storage) (o : Order) : Storage :=
  { st with orders := aset st.orders o.id o }

def Storage.get_cart (st : Storage) (cart_id : String) : Option Cart :=
  alookup st.carts cart_id

def Storage.save_cart (st : Storage) (c : Cart) : Storage :=
  { st with carts := aset st.carts c.id c }

def Storage.delete_cart (st : Storage) (cart_id : String) : Storage :=
  { st with carts := adel st.carts cart_id }

/-- `get_discount_code` upper-cases its argument before lookup. -/
def Storage.get_discount_code (st : Storage) (code : String) : Option DiscountCode :=
  alookup st.discount_codes (pyUpper code)

/-- Length of `get_customer_cancellations(customer_id, days=30)`. -/
def Storage.get_customer_cancellations (st : Storage) (customer_id : String) : ℕ :=
  (alookup st.cancellation_logs customer_id).getD 0

def Storage.log_cancellation (st : Storage) (customer_id : String) : Storage :=
  let n := (alookup st.cancellation_logs customer_id).getD 0
  { st with cancellation_logs := aset st.cancellation_logs customer_id (n + 1) }

/-- `Storage.reserve_stock`: decrement stock, mark unavailable at ≤ 0. -/
def Storage.reserve_stock (st : Storage) (item_id : String) (quantity : ℤ) : Storage :=
  match st.get_menu_item item_id with
  | Option.none => st
  | some item =>
      let item1 := { item with stock_quantity := item.stock_quantity - quantity }
      let item2 := if item1.stock_quantity ≤ 0
                   then { item1 with is_available := false } else item1
      st.save_menu_item item2

/-- `Storage.release_stock`: increment stock back. -/
def Storage.release_stock (st : Storage) (item_id : String) (quantity : ℤ) : Storage :=
  match st.get_menu_item item_id with
  | Option.none => st
  | some item =>
      st.save_menu_item { item with stock_quantity := item.stock_quantity + quantity }

-- ==================== Cart engine helpers (order_manager.py) ====================

/-- Python `set(a) == set(b)` on string lists. -/
def setEqStr (a b : List String) : Bool :=
  a.all (fun x => b.contains x) && b.all (fun x => a.contains x)

/-- `OrderManager._same_customization` (compares extras and removed
ingredients as unordered sets, size and spice level exactly). -/
def sameCustomization (c1 c2 : Option ItemCustomization) : Bool :=
  match c1, c2 with
  | Option.none, Option.none => true
  | Option.none, some _ => false
  | some _, Option.none => false
  | some a, some b =>
      setEqStr a.extras b.extras
        && setEqStr a.removed_ingredients b.removed_ingredients
        && a.size == b.size && a.spice_level == b.spice_level

/-- `OrderManager._calculate_item_price`: base price plus matching
extras plus size adjustment (when `size_prices` is non-empty and holds
the selected size), rounded to 2 decimals. -/
def calculateItemPrice (item : MenuItem) (customization : Option ItemCustomization) : ℚ :=
  match customization with
  | Option.none => round2 item.price
  | some c =>
      let p1 := c.extras.foldl
        (fun p eid =>
          match item.extras.find? (fun e => e.id == eid) with
          | some e => p + e.price
          | Option.none => p) item.price
      let p2 :=
        if item.size_prices.isEmpty then p1
        else match item.size_prices.find? (fun sp => sp.1 == c.size) with
          | some sp => p1 + sp.2
          | Option.none => p1
      round2 p2

/-- `OrderManager._check_item_availability`; `day`/`nowMinutes` stand for
`datetime.now()`. Returns the failure reason, or `none` if available. -/
def checkItemAvailability (item : MenuItem) (day nowMinutes : ℤ) : Option String :=
  if item.is_available = false then some ("Item unavailable")
  else if item.stock_quantity ≤ 0 then some ("Out of stock")
  else if item.availability_schedule.isEmpty then Option.none
  else if item.availability_schedule.any (fun s =>
            s.day_of_week == day && decide (s.start_time ≤ nowMinutes)
              && decide (nowMinutes ≤ s.end_time))
  then Option.none
  else some ("Not available at this time")

/-- `OrderManager._calculate_discount`. The Python truthiness tests on
`min_order_amount` (a float) and `max_discount_amount` (`None` or a
float) are embedded as `≠ 0` and `Option`-plus-`≠ 0` checks. -/
def calcDiscount (subtotal : ℚ) (d : DiscountCode) : ℚ :=
  if d.min_order_amount ≠ 0 ∧ subtotal < d.min_order_amount then 0
  else
    match d.discount_type with
    | .percentage =>
        let amount := subtotal * (d.value / 100)
        let amount :=
          match d.max_discount_amount with
          | some cap => if cap ≠ 0 then min amount cap else amount
          | Option.none => amount
        round2 amount
    | .fixedAmount =>
        let amount := d.value
        let amount :=
          match d.max_discount_amount with
          | some cap => if cap ≠ 0 then min amount cap else amount
          | Option.none => amount
        round2 amount
    | _ => 0

/-- `OrderManager._recalculate_cart` (VAT rate 0.20). An inactive or
unknown attached discount code is zeroed and detached. -/
def recalculateCart (st : Storage) (cart : Cart) : Cart :=
  let subtotal := qsum (cart.items.map (fun ci => ci.line_total))
  let dc : ℚ × Option String :=
    match cart.discount_code with
    | Option.none => (cart.discount_amount, cart.discount_code)
    | some code =>
        match st.get_discount_code code with
        | some d =>
            if d.is_active then (calcDiscount subtotal d, some code)
            else (0, Option.none)
        | Option.none => (0, Option.none)
  let taxable := subtotal - dc.1
  let tax := round2 (taxable * (20 / 100))
  let total := round2 (subtotal - dc.1 + tax + cart.delivery_fee + cart.tip_amount)
  { cart with subtotal := subtotal, discount_amount := dc.1,
              discount_code := dc.2, tax_amount := tax, total := total }

/-- Result dictionary of the cart operations
(`{"success": ..., "cart": ..., "error": ...}`). -/
structure CartRes where
  success : Bool
  cart : Option Cart
  error : Option String
deriving DecidableEq

/-- Update the first list element satisfying `p` (Python mutates the
object found by `next(...)` in place). -/
def updateFirst {α : Type} (p : α → Bool) (f : α → α) : List α → List α
  | [] => []
  | x :: xs => if p x then f x :: xs else x :: updateFirst p f xs

-- ==================== Cart engine operations (order_manager.py) ====================

/-- `OrderManager.add_to_cart`. `day`/`nowMinutes` stand for
`datetime.now()` in the availability check; `new_line_id` is the
`uuid4` id a freshly created `CartItem` would receive. -/
def add_to_cart (st : Storage) (cart_id item_id : String) (quantity : ℤ)
    (customization : Option ItemCustomization) (notes : String)
    (day nowMinutes : ℤ) (new_line_id : String) : CartRes × Storage :=
  let cart := (st.get_cart cart_id).getD { id := cart_id }
  let total_items := (cart.items.map (fun ci => ci.quantity)).foldl (· + ·) 0
  if total_items + quantity > 50 then
    (⟨false, Option.none, some ("Max 50 items")⟩, st)
  else if quantity < 1 ∨ quantity > 99 then
    (⟨false, Option.none, some ("Invalid quantity (1-99)")⟩, st)
  else
    match st.get_menu_item item_id with
    | Option.none => (⟨false, Option.none, some ("Item not found")⟩, st)
    | some item =>
      if item.is_available = false then
        (⟨false, Option.none, some ("Item not available")⟩, st)
      else if item.stock_quantity < quantity then
        (⟨false, Option.none,
          some ("Only " ++ toString item.stock_quantity ++ " in stock")⟩, st)
      else
        match checkItemAvailability item day nowMinutes with
        | some reason => (⟨false, Option.none, some reason⟩, st)
        | Option.none =>
          let unit_price := calculateItemPrice item customization
          let line_total := unit_price * quantity
          let isMatch := fun ci =>
            ci.menu_item_id == item_id
              && sameCustomization (some ci.customization) customization
          match cart.items.find? isMatch with
          | some existing =>
              if existing.quantity + quantity > 99 then
                (⟨false, Option.none, some ("Max quantity exceeded")⟩, st)
              else
                let items' := updateFirst isMatch
                  (fun ci => { ci with
                               quantity := ci.quantity + quantity,
                               line_total := unit_price * (ci.quantity + quantity) })
                  cart.items
                let cart' := recalculateCart st { cart with items := items' }
                (⟨true, some cart', Option.none⟩, st.save_cart cart')
          | Option.none =>
              let cart_item : CartItem :=
                { id := new_line_id, menu_item_id := item_id, quantity := quantity,
                  customization := customization.getD {},
                  unit_price := unit_price, line_total := line_total,
                  notes := strTake notes 200 }
              let cart' := recalculateCart st
                { cart with items := cart.items ++ [cart_item] }
              (⟨true, some cart', Option.none⟩, st.save_cart cart')

/-- `OrderManager.update_cart_item`. -/
def update_cart_item (st : Storage) (cart_id cart_item_id : String)
    (quantity : Option ℤ) (notes : Option String) : CartRes × Storage :=
  match st.get_cart cart_id with
  | Option.none => (⟨false, Option.none, some ("Cart not found")⟩, st)
  | some cart =>
    match cart.items.find? (fun ci => ci.id == cart_item_id) with
    | Option.none => (⟨false, Option.none, some ("Item not in cart")⟩, st)
    | some ci =>
      let commit := fun (st : Storage) (cart : Cart) =>
        let upd := fun (c : CartItem) =>
          let c1 := match quantity with
            | some q => { c with quantity := q, line_total := c.unit_price * q }
            | Option.none => c
          match notes with
          | some n => { c1 with notes := strTake n 200 }
          | Option.none => c1
        let cart' := recalculateCart st
          { cart with items := updateFirst (fun c => c.id == cart_item_id) upd cart.items }
        ((⟨true, some cart', Option.none⟩ : CartRes), st.save_cart cart')
      match quantity with
      | some q =>
          if q < 1 ∨ q > 99 then
            (⟨false, Option.none, some ("Invalid quantity")⟩, st)
          else
            match st.get_menu_item ci.menu_item_id with
            | some item =>
                if item.stock_quantity < q then
                  (⟨false, Option.none,
                    some ("Only " ++ toString item.stock_quantity ++ " available")⟩, st)
                else commit st cart
            | Option.none => commit st cart
      | Option.none => commit st cart

/-- `OrderManager.remove_from_cart`. -/
def remove_from_cart (st : Storage) (cart_id cart_item_id : String) : CartRes × Storage :=
  match st.get_cart cart_id with
  | Option.none => (⟨false, Option.none, some ("Cart not found")⟩, st)
  | some cart =>
      let cart' := recalculateCart st
        { cart with items := cart.items.filter (fun ci => !(ci.id == cart_item_id)) }
      (⟨true, some cart', Option.none⟩, st.save_cart cart')

/-- `OrderManager.clear_cart`: empties the items and zeroes subtotal,
tax, total and discount, leaving `delivery_fee` and `tip_amount`
untouched (no recalculation is performed). -/
def clear_cart (st : Storage) (cart_id : String) : CartRes × Storage :=
  match st.get_cart cart_id with
  | Option.none => (⟨false, Option.none, some ("Cart not found")⟩, st)
  | some cart =>
      let cart' := { cart with
                     items := [], subtotal := 0, tax_amount := 0,
                     total := 0, discount_amount := 0 }
      (⟨true, some cart', Option.none⟩, st.save_cart cart')

/-- `OrderManager.merge_carts`. Guest lines are matched against customer
lines by `menu_item_id` alone; a matching line keeps its customization
and gets `min(existing + incoming, 99)` as quantity. In the re-key
branch the Python object is renamed and saved under the new key; the
stale entry under the old key (an aliasing artifact) is modelled with
value semantics, leaving the original guest entry in place. -/
def merge_carts (st : Storage) (guest_cart_id customer_cart_id : String) :
    CartRes × Storage :=
  match st.get_cart guest_cart_id with
  | Option.none => (⟨true, st.get_cart customer_cart_id, Option.none⟩, st)
  | some guest_cart =>
    match st.get_cart customer_cart_id with
    | Option.none =>
        let g' := { guest_cart with id := customer_cart_id }
        (⟨true, some g', Option.none⟩, st.save_cart g')
    | some customer_cart =>
        let merged := guest_cart.items.foldl
          (fun acc item =>
            if acc.any (fun ci => ci.menu_item_id == item.menu_item_id) then
              updateFirst (fun ci => ci.menu_item_id == item.menu_item_id)
                (fun ci =>
                  let q := min (ci.quantity + item.quantity) 99
                  { ci with quantity := q, line_total := ci.unit_price * q })
                acc
            else acc ++ [item])
          customer_cart.items
        let cart' := recalculateCart st { customer_cart with items := merged }
        let st' := (st.save_cart cart').delete_cart guest_cart_id
        (⟨true, some cart', Option.none⟩, st')

-- ==================== Order lifecycle engine (order_manager.py) ====================

structure OrderRes where
  success : Bool
  order : Option Order
  error : Option String
deriving DecidableEq

/-- The `valid_transitions` table of `OrderManager.update_order_status`. -/
def validTransitions : OrderStatus → List OrderStatus
  | .pending => [.confirmed, .cancelled]
  | .confirmed => [.preparing, .cancelled]
  | .preparing => [.ready, .cancelled]
  | .ready => [.outForDelivery]
  | .outForDelivery => [.delivered]
  | .delivered => []
  | .cancelled => []

/-- Zone travel minutes used by `OrderManager._estimate_delivery_time`
(`zone_times.get(zone, 15)`). -/
def omZoneMinutes : DeliveryZone → ℤ
  | .zone1 => 10
  | .zone2 => 20
  | .zone3 => 30
  | .outOfRange => 15

/-- `OrderManager._estimate_delivery_time` as a minute offset from now:
base 30, plus 5 minutes per 3 items (floor division), plus zone travel
time if an address is present, plus 15 in the 18:00–21:00 peak window.
`hour` stands for `datetime.now().hour`. -/
def estimateDeliveryMinutes (o : Order) (hour : ℤ) : ℤ :=
  let item_count := (o.items.map (fun ci => ci.quantity)).foldl (· + ·) 0
  let base := 30 + (Int.fdiv item_count 3) * 5
  let base := base +
    (match o.delivery_address with
     | some addr => omZoneMinutes addr.delivery_zone
     | Option.none => 0)
  if 18 ≤ hour ∧ hour ≤ 21 then base + 15 else base

/-- `OrderManager.update_order_status`. -/
def update_order_status (st : Storage) (order_id : String) (new_status : OrderStatus)
    (notes : String) (hour : ℤ) : OrderRes × Storage :=
  match st.get_order order_id with
  | Option.none => (⟨false, Option.none, some ("Order not found")⟩, st)
  | some order =>
    if new_status ∈ validTransitions order.status then
      let o1 := { order with
                  status := new_status,
                  status_history := order.status_history ++ [⟨new_status, notes⟩] }
      let o2 := if new_status = .delivered
                then { o1 with actual_delivery_recorded := true } else o1
      let o3 := if new_status = .confirmed ∨ new_status = .preparing
                then { o2 with estimated_delivery_minutes := estimateDeliveryMinutes o2 hour }
                else o2
      (⟨true, some o3, Option.none⟩, st.save_order o3)
    else
      (⟨false, Option.none,
        some ("Cannot change from " ++ order.status.value ++ " to " ++ new_status.value)⟩,
       st)

/-- The item re-validation loop of `OrderManager.place_order`: first
failing line item yields its error. -/
def validateItems (st : Storage) : List CartItem → Option String
  | [] => Option.none
  | ci :: rest =>
    match st.get_menu_item ci.menu_item_id with
    | Option.none => some ("Item no longer exists")
    | some item =>
      if item.is_available = false then
        some (item.name ++ " is no longer available")
      else if item.stock_quantity < ci.quantity then
        some ("Insufficient stock for " ++ item.name)
      else validateItems st rest

/-- `OrderManager.place_order`. `hour` stands for `datetime.now().hour`
(restaurant open iff `11 <= hour < 23`, peak estimate window
`18 <= hour <= 21`); `new_order_id` and `order_number` stand for the
`uuid4` id and the random `ORD-...` number. The pound sign in the
minimum-order message carries the `Â` mojibake present in the source. -/
def place_order (st : Storage) (cart_id customer_id : String)
    (delivery_address : Option Address) (payment_method : String)
    (loyalty_points_to_use : ℤ) (hour : ℤ)
    (new_order_id order_number : String) : OrderRes × Storage :=
  match st.get_cart cart_id with
  | Option.none => (⟨false, Option.none, some ("Cart is empty")⟩, st)
  | some cart =>
    if cart.items.isEmpty then (⟨false, Option.none, some ("Cart is empty")⟩, st)
    else if cart.subtotal < 10 then
      (⟨false, Option.none, some ("Minimum order Â£10.0")⟩, st)
    else
      match delivery_address with
      | Option.none => (⟨false, Option.none, some ("Delivery address required")⟩, st)
      | some addr =>
        if addr.delivery_zone = .outOfRange then
          (⟨false, Option.none, some ("Outside delivery area")⟩, st)
        else
          match validateItems st cart.items with
          | some e => (⟨false, Option.none, some e⟩, st)
          | Option.none =>
            if ¬ (11 ≤ hour ∧ hour < 23) then
              (⟨false, Option.none, some ("Restaurant is closed")⟩, st)
            else
              let points_discount : ℚ :=
                if loyalty_points_to_use > 0 then
                  match st.get_customer customer_id with
                  | some c =>
                      if loyalty_points_to_use ≤ c.loyalty_points then
                        min ((loyalty_points_to_use : ℚ) * (1 / 100)) (cart.total * (1 / 2))
                      else 0
                  | Option.none => 0
                else 0
              let order0 : Order :=
                { id := new_order_id, order_number := order_number,
                  customer_id := customer_id, items := cart.items,
                  delivery_address := some addr,
                  subtotal := cart.subtotal,
                  discount_amount := cart.discount_amount + points_discount,
                  tax_amount := cart.tax_amount,
                  delivery_fee := cart.delivery_fee,
                  tip_amount := cart.tip_amount,
                  total := round2 (cart.total - points_discount),
                  discount_code_used := cart.discount_code,
                  loyalty_points_used := pyInt (points_discount / (1 / 100)),
                  status := .pending,
                  status_history := [⟨.pending, ""⟩],
                  payment_method := payment_method }
              let st1 := cart.items.foldl
                (fun s ci => s.reserve_stock ci.menu_item_id ci.quantity) st
              let order := { order0 with
                             estimated_delivery_minutes := estimateDeliveryMinutes order0 hour }
              let st2 := st1.save_order order
              let st3 := (clear_cart st2 cart_id).2
              (⟨true, some order, Option.none⟩, st3)

/-- Refund percentage by status in `OrderManager.cancel_order`;
`none` means the order cannot be cancelled. -/
def refundPercentage : OrderStatus → Option ℤ
  | .pending => some 100
  | .confirmed => some 100
  | .preparing => some 50
  | _ => Option.none

/-- Result dictionary of `cancel_order`. -/
structure CancelRes where
  success : Bool
  refund : ℚ
  refund_percentage : Option ℤ := Option.none
  error : Option String
deriving DecidableEq

/-- `OrderManager.cancel_order` (cancellation cap 3 per month). -/
def cancel_order (st : Storage) (order_id customer_id reason : String) :
    CancelRes × Storage :=
  match st.get_order order_id with
  | Option.none => (⟨false, 0, Option.none, some ("Order not found")⟩, st)
  | some order =>
    if order.customer_id ≠ customer_id then
      (⟨false, 0, Option.none, some ("Not authorized")⟩, st)
    else if 3 ≤ st.get_customer_cancellations customer_id then
      (⟨false, 0, Option.none, some ("Monthly cancellation limit reached")⟩, st)
    else
      match refundPercentage order.status with
      | Option.none =>
          (⟨false, 0, Option.none,
            some ("Cannot cancel order in " ++ order.status.value ++ " status")⟩, st)
      | some pct =>
          let refund_amount := round2 (order.total * ((pct : ℚ) / 100))
          let order' := { order with
                          status := .cancelled,
                          status_history := order.status_history ++ [⟨.cancelled, reason⟩],
                          cancellation_reason := reason,
                          refund_amount := refund_amount }
          let st1 := order.items.foldl
            (fun s ci => s.release_stock ci.menu_item_id ci.quantity) st
          let st2 :=
            if 0 < order.loyalty_points_used then
              match st1.get_customer customer_id with
              | some c => st1.save_customer
                  { c with loyalty_points := c.loyalty_points + order.loyalty_points_used }
              | Option.none => st1
            else st1
          let st3 := st2.save_order order'
          let st4 := st3.log_cancellation customer_id
          (⟨true, refund_amount, some pct, Option.none⟩, st4)

-- ============ Delivery estimate (payment_delivery_manager.py) ============

/-- `PaymentDeliveryManager._is_peak_time`: `18 <= hour < 21`. -/
def pdmIsPeak (hour : ℤ) : Bool := decide (18 ≤ hour ∧ hour < 21)

/-- `PaymentDeliveryManager._is_bad_weather` (constantly `False`). -/
def pdmIsBadWeather : Bool := false

structure PdmEstimate where
  min_minutes : ℤ
  max_minutes : ℤ
deriving DecidableEq

/-- `PaymentDeliveryManager.estimate_delivery_time`: step-function prep
time, fixed zone travel lookup (default 20), 5 minutes per queued
order, peak and weather surcharges, displayed range `[min, min+15]`. -/
def pdm_estimate_delivery_time (order_size : ℤ) (delivery_zone : DeliveryZone)
    (current_queue : ℤ) (hour : ℤ) : PdmEstimate :=
  let prep : ℤ :=
    if order_size ≤ 3 then 15
    else if order_size ≤ 6 then 25
    else if order_size ≤ 10 then 35
    else 45
  let travel : ℤ :=
    match delivery_zone with
    | .zone1 => 10
    | .zone2 => 20
    | .zone3 => 30
    | .outOfRange => 20
  let queue_time := current_queue * 5
  let peak_adj : ℤ := if pdmIsPeak hour then 15 else 0
  let weather_adj : ℤ := if pdmIsBadWeather then 10 else 0
  let total_min := prep + travel + queue_time + peak_adj + weather_adj
  ⟨total_min, total_min + 15⟩

-- ==================== Cart total invariant (claim C1) ====================

/-- The spec's cart invariant:
`total == round(subtotal - discount + tax + deliveryFee + tip, 2)`. -/
def cartInv (c : Cart) : Prop :=
  c.total = round2 (c.subtotal - c.discount_amount + c.tax_amount
                      + c.delivery_fee + c.tip_amount)

theorem recalc_cartInv (st : Storage) (cart : Cart) :
    cartInv (recalculateCart st cart) := rfl

theorem clear_inv_iff (cart : Cart) :
    (cartInv { cart with items := [], subtotal := 0, tax_amount := 0,
                         total := 0, discount_amount := 0 }
      ↔ round2 (cart.delivery_fee + cart.tip_amount) = 0) := by
  have e : (0 - 0 + 0 + cart.delivery_fee + cart.tip_amount : ℚ)
      = cart.delivery_fee + cart.tip_amount := by ring
  unfold cartInv
  dsimp only []
  rw [e]
  exact eq_comm

/-- Cart stored under `"c1"` with one £12.00 × 2 line, a £2.50 delivery
fee, 20% tax and total `round2 (24 + 4.8 + 2.5) = 31.3` — it satisfies
the invariant before clearing. -/
def feeItem : CartItem :=
  { id := "F1", menu_item_id := "X", quantity := 2, unit_price := 12, line_total := 24 }

def feeCart : Cart :=
  { id := "c1", items := [feeItem], subtotal := 24, tax_amount := 24 / 5,
    delivery_fee := 5 / 2, total := 313 / 10 }

def stFee : Storage := { carts := [("c1", feeCart)] }

def clearedFeeCart : Cart :=
  { feeCart with items := [], subtotal := 0, tax_amount := 0,
                 total := 0, discount_amount := 0 }

/-- Claim C1 counterexample: clearing the stored cart with a non-zero
delivery fee persists a cart whose total is 0 while its delivery fee
stays 2.50, so `total = round2 (subtotal - discount + tax + fee + tip)`
fails after this mutation. -/
theorem C1_counterexample :
    (clear_cart stFee "c1").1.cart = some clearedFeeCart
      ∧ (clear_cart stFee "c1").2.get_cart "c1" = some clearedFeeCart
      ∧ ¬ cartInv clearedFeeCart := by
  refine ⟨?_, ?_, ?_⟩
  · unfold clear_cart stFee Storage.get_cart
    simp [alookup, clearedFeeCart]
  · unfold clear_cart stFee Storage.get_cart Storage.save_cart
    simp [alookup, aset, clearedFeeCart, feeCart]
  · unfold cartInv clearedFeeCart feeCart
    simp
    rw [round2_of_int _ 250 (by norm_num)]
    norm_num

/-- Claim C1 (amended): after `add_to_cart`, `update_cart_item`,
`remove_from_cart`, and the both-carts-present branch of `merge_carts`,
the persisted cart satisfies
`total = round2 (subtotal - discount + tax + deliveryFee + tip)`,
because each ends in `_recalculate_cart`; `clear_cart` instead zeroes
items, subtotal, tax, discount and total while leaving `delivery_fee`
and `tip_amount` in place, so the cart it persists satisfies the
invariant iff `round2 (delivery_fee + tip_amount) = 0`. -/
theorem C1_cart_invariant :
    (∀ st cid iid q cu n d t lid c,
        (add_to_cart st cid iid q cu n d t lid).1.cart = some c → cartInv c)
    ∧ (∀ st cid ciid q n c,
        (update_cart_item st cid ciid q n).1.cart = some c → cartInv c)
    ∧ (∀ st cid ciid c,
        (remove_from_cart st cid ciid).1.cart = some c → cartInv c)
    ∧ (∀ st g cu gc cuc c, st.get_cart g = some gc → st.get_cart cu = some cuc →
        (merge_carts st g cu).1.cart = some c → cartInv c)
    ∧ (∀ st cid c, (clear_cart st cid).1.cart = some c →
        (cartInv c ↔ round2 (c.delivery_fee + c.tip_amount) = 0)) := by
  refine ⟨?_, ?_, ?_, ?_, ?_⟩
  · intro st cid iid q cu n d t lid c h
    unfold add_to_cart at h
    iterate 16 (all_goals (try simp only [] at h); all_goals try split at h)
    all_goals simp_all
    all_goals first
      | exact recalc_cartInv _ _
      | (rw [← h]; exact recalc_cartInv _ _)
  · intro st cid ciid q n c h
    unfold update_cart_item at h
    iterate 16 (all_goals (try simp only [] at h); all_goals try split at h)
    all_goals simp_all
    all_goals first
      | exact recalc_cartInv _ _
      | (rw [← h]; exact recalc_cartInv _ _)
  · intro st cid ciid c h
    unfold remove_from_cart at h
    iterate 16 (all_goals (try simp only [] at h); all_goals try split at h)
    all_goals simp_all
    all_goals first
      | exact recalc_cartInv _ _
      | (rw [← h]; exact recalc_cartInv _ _)
  · intro st g cu gc cuc c hg hc h
    unfold merge_carts at h
    rw [hg, hc] at h
    simp at h
    rw [← h]; exact recalc_cartInv _ _
  · intro st cid c h
    unfold clear_cart at h
    split at h
    · simp_all
    · simp at h
      subst h
      exact clear_inv_iff _

/-- Witness for C1: clearing a fee-free stored cart does keep the
invariant, via the `clear_cart` conjunct. -/
def plainCart : Cart :=
  { id := "p1", items := [feeItem], subtotal := 24, tax_amount := 24 / 5, total := 144 / 5 }

def stPlain : Storage := { carts := [("p1", plainCart)] }

theorem C1_witness :
    cartInv { plainCart with items := [], subtotal := 0, tax_amount := 0,
                             total := 0, discount_amount := 0 } := by
  have h := C1_cart_invariant.2.2.2.2 stPlain "p1"
    { plainCart with items := [], subtotal := 0, tax_amount := 0,
                     total := 0, discount_amount := 0 }
    (by unfold clear_cart stPlain Storage.get_cart; simp [alookup])
  refine h.mpr ?_
  unfold plainCart
  rw [round2_of_int _ 0 (by norm_num)]
  norm_num

-- ==================== Scenario B (claim C2) ====================

/-- One cart line: unit price 12.00, quantity 2, line total 24.00. -/
def itemB : CartItem :=
  { id := "L1", menu_item_id := "X", quantity := 2, unit_price := 12, line_total := 24 }

/-- Active 10%-percentage discount code with minimum order 15.00. -/
def save10 : DiscountCode :=
  { code := "SAVE10", discount_type := .percentage, value := 10, min_order_amount := 15 }

def stB : Storage := { discount_codes := [("SAVE10", save10)] }

/-- The cart of Scenario B with the code attached. -/
def cartB : Cart := { id := "b", items := [itemB], discount_code := some ("SAVE10") }

theorem scenarioB_eval :
    (recalculateCart stB cartB).subtotal = 24
      ∧ (recalculateCart stB cartB).discount_amount = 12 / 5
      ∧ (recalculateCart stB cartB).tax_amount = 108 / 25
      ∧ (recalculateCart stB cartB).total = 648 / 25 := by
  have ha : save10.is_active = true := rfl
  have h1 : calcDiscount 24 save10 = 12 / 5 := by
    unfold calcDiscount save10
    norm_num
    rw [round2_of_int _ 240 (by norm_num)]
    norm_num
  have h2 : round2 ((24 - 12 / 5 : ℚ) * (20 / 100)) = 108 / 25 := by
    rw [round2_of_int _ 432 (by norm_num)]
    norm_num
  have h3 : round2 ((24 : ℚ) - 12 / 5 + 108 / 25) = 648 / 25 := by
    rw [round2_of_int _ 2592 (by norm_num)]
    norm_num
  unfold recalculateCart Storage.get_discount_code
  simp [cartB, stB, alookup, qsum, itemB, pyUpper, ha, h1, h2, h3]

/-- Claim C2 counterexample: on the Scenario B cart the engine yields
discount 2.40 and tax 4.32 as claimed, but total 25.92, not the 26.32
the claim states (24.00 − 2.40 + 4.32 = 25.92). -/
theorem C2_counterexample :
    (recalculateCart stB cartB).total = 648 / 25
      ∧ (recalculateCart stB cartB).total ≠ 2632 / 100 := by
  refine ⟨scenarioB_eval.2.2.2, ?_⟩
  rw [scenarioB_eval.2.2.2]
  norm_num

/-- Claim C2 (amended): for the one-line cart with unit price 12.00 and
quantity 2 and the active 10% code with minimum order 15.00, recomputing
yields discount 2.40, tax 4.32 = round2 (21.60 × 0.20) computed on the
discounted subtotal 21.60 (not 4.80 on the gross 24.00), and total
25.92 = round2 (24.00 − 2.40 + 4.32). -/
theorem C2_scenarioB :
    (recalculateCart stB cartB).discount_amount = 240 / 100
      ∧ (recalculateCart stB cartB).tax_amount = 432 / 100
      ∧ (recalculateCart stB cartB).tax_amount
          = round2 (((recalculateCart stB cartB).subtotal
              - (recalculateCart stB cartB).discount_amount) * (20 / 100))
      ∧ (recalculateCart stB cartB).tax_amount ≠ round2 ((recalculateCart stB cartB).subtotal * (20 / 100))
      ∧ (recalculateCart stB cartB).total = 2592 / 100 := by
  obtain ⟨hs, hd, ht, htot⟩ := scenarioB_eval
  refine ⟨by rw [hd]; norm_num, by rw [ht]; norm_num, ?_, ?_, by rw [htot]; norm_num⟩
  · rw [hs, hd, ht]
    rw [round2_of_int _ 432 (by norm_num)]
    norm_num
  · rw [hs, ht]
    rw [round2_of_int _ 480 (by norm_num)]
    norm_num

-- ==================== Status state machine (claim C3) ====================

/-- The transition relation exactly as the claim words it. -/
def claimedAllowed (a b : OrderStatus) : Prop :=
  (a = .pending ∧ b = .confirmed)
    ∨ (a = .confirmed ∧ b = .preparing)
    ∨ (a = .preparing ∧ b = .ready)
    ∨ (a = .ready ∧ b = .outForDelivery)
    ∨ (a = .outForDelivery ∧ b = .delivered)
    ∨ (b = .cancelled ∧ (a = .pending ∨ a = .confirmed ∨ a = .preparing))

instance (a b : OrderStatus) : Decidable (claimedAllowed a b) := by
  unfold claimedAllowed
  infer_instance

theorem claimedAllowed_iff_table (a b : OrderStatus) :
    claimedAllowed a b ↔ b ∈ validTransitions a := by
  cases a <;> cases b <;> simp [claimedAllowed, validTransitions]

/-- Claim C3: `update_order_status` succeeds exactly on the listed
transitions (the successor edges plus PENDING/CONFIRMED/PREPARING to
CANCELLED); on every other pair it fails, the error names both statuses,
and the storage — hence the order's status and history — is unchanged,
making DELIVERED and CANCELLED terminal. -/
theorem C3_update_order_status (st : Storage) (oid : String) (o : Order)
    (ns : OrderStatus) (notes : String) (hour : ℤ)
    (h : st.get_order oid = some o) :
    (claimedAllowed o.status ns →
        (update_order_status st oid ns notes hour).1.success = true)
    ∧ (¬ claimedAllowed o.status ns →
        (update_order_status st oid ns notes hour).1.success = false
          ∧ (update_order_status st oid ns notes hour).1.error
              = some ("Cannot change from " ++ o.status.value ++ " to " ++ ns.value)
          ∧ (update_order_status st oid ns notes hour).2 = st) := by
  unfold update_order_status
  rw [h]
  dsimp only []
  constructor
  · intro hyp
    rw [if_pos ((claimedAllowed_iff_table _ _).mp hyp)]
  · intro hyp
    rw [if_neg (fun hmem => hyp ((claimedAllowed_iff_table _ _).mpr hmem))]
    exact ⟨rfl, rfl, rfl⟩

/-- A delivered order (terminal) stored under `"o1"`. -/
def deliveredOrder : Order :=
  { id := "o1", customer_id := "cust", status := .delivered,
    status_history := [⟨.pending, ""⟩, ⟨.delivered, ""⟩] }

def stDelivered : Storage := { orders := [("o1", deliveredOrder)] }

/-- Witness for C3: a DELIVERED → PENDING attempt fails with the error
naming both statuses and leaves the storage unchanged. -/
theorem C3_witness :
    (update_order_status stDelivered "o1" .pending "" 12).1.success = false
      ∧ (update_order_status stDelivered "o1" .pending "" 12).1.error
          = some ("Cannot change from delivered to pending")
      ∧ (update_order_status stDelivered "o1" .pending "" 12).2 = stDelivered := by
  have h := C3_update_order_status stDelivered "o1" deliveredOrder .pending "" 12
    (by unfold stDelivered Storage.get_order; simp [alookup])
  have h2 := h.2 (by unfold deliveredOrder; simp [claimedAllowed])
  exact ⟨h2.1, h2.2.1, h2.2.2⟩

-- ==================== Cancellation and refunds (claim C4) ====================

theorem alookup_aset_self {V : Type} (m : List (String × V)) (k : String) (v : V) :
    alookup (aset m k v) k = some v := by
  induction m with
  | nil => simp [aset, alookup]
  | cons hd tl ih =>
      obtain ⟨k', v'⟩ := hd
      by_cases hk : k' = k
      · simp [aset, alookup, hk]
      · simp [aset, alookup, hk, ih]

/-- Claim C4: with a matching customer under the monthly cancellation
cap, cancelling in PENDING/CONFIRMED refunds 100% of the total, in
PREPARING refunds `round2 (50% of total)`, in any other status it fails
leaving the storage unchanged; every successful cancellation stores the
order as CANCELLED with one appended history entry and releases each
line's quantity of stock. (`hrt` records that the order's total is an
exact 2-decimal value, as `place_order` persists it.) -/
theorem C4_cancel_order (st : Storage) (oid cid reason : String) (o : Order)
    (h : st.get_order oid = some o)
    (hown : o.customer_id = cid)
    (hcap : st.get_customer_cancellations cid < 3)
    (hrt : round2 o.total = o.total) :
    ((o.status = .pending ∨ o.status = .confirmed) →
        (cancel_order st oid cid reason).1.success = true
          ∧ (cancel_order st oid cid reason).1.refund = o.total)
    ∧ (o.status = .preparing →
        (cancel_order st oid cid reason).1.success = true
          ∧ (cancel_order st oid cid reason).1.refund = round2 (o.total * (50 / 100)))
    ∧ ((o.status = .ready ∨ o.status = .outForDelivery ∨ o.status = .delivered
          ∨ o.status = .cancelled) →
        (cancel_order st oid cid reason).1.success = false
          ∧ (cancel_order st oid cid reason).2 = st)
    ∧ (∀ pct : ℤ, refundPercentage o.status = some pct →
        (cancel_order st oid cid reason).1
            = ⟨true, round2 (o.total * ((pct : ℚ) / 100)), some pct, Option.none⟩
          ∧ (cancel_order st oid cid reason).2.get_order o.id
              = some { o with
                       status := .cancelled,
                       status_history := o.status_history ++ [⟨.cancelled, reason⟩],
                       cancellation_reason := reason,
                       refund_amount := round2 (o.total * ((pct : ℚ) / 100)) }
          ∧ (cancel_order st oid cid reason).2.menu_items
              = (o.items.foldl
                  (fun s ci => Storage.release_stock s ci.menu_item_id ci.quantity)
                  st).menu_items) := by
  have hne : ¬ (o.customer_id ≠ cid) := by simp [hown]
  have hcap' : ¬ (3 ≤ st.get_customer_cancellations cid) := by omega
  have core : ∀ pct : ℤ, refundPercentage o.status = some pct →
      (cancel_order st oid cid reason).1
          = ⟨true, round2 (o.total * ((pct : ℚ) / 100)), some pct, Option.none⟩
        ∧ (cancel_order st oid cid reason).2.get_order o.id
            = some { o with
                     status := .cancelled,
                     status_history := o.status_history ++ [⟨.cancelled, reason⟩],
                     cancellation_reason := reason,
                     refund_amount := round2 (o.total * ((pct : ℚ) / 100)) }
        ∧ (cancel_order st oid cid reason).2.menu_items
            = (o.items.foldl
                (fun s ci => Storage.release_stock s ci.menu_item_id ci.quantity)
                st).menu_items := by
    intro pct hpct
    unfold cancel_order
    rw [h]
    dsimp only []
    rw [if_neg hne, if_neg hcap', hpct]
    dsimp only []
    refine ⟨rfl, ?_, ?_⟩
    · unfold Storage.get_order Storage.log_cancellation Storage.save_order
      dsimp only []
      split
      · split
        all_goals exact alookup_aset_self _ _ _
      · exact alookup_aset_self _ _ _
    · unfold Storage.log_cancellation Storage.save_order
      dsimp only []
      split
      · split
        · rfl
        · rfl
      · rfl
  refine ⟨?_, ?_, ?_, core⟩
  · intro hs
    have h100 : refundPercentage o.status = some 100 := by
      rcases hs with hs | hs <;> rw [hs] <;> rfl
    obtain ⟨h1, _, _⟩ := core 100 h100
    rw [h1]
    refine ⟨rfl, ?_⟩
    show round2 (o.total * (((100 : ℤ) : ℚ) / 100)) = o.total
    rw [show (((100 : ℤ) : ℚ) / 100) = 1 by norm_num, mul_one]
    exact hrt
  · intro hs
    have h50 : refundPercentage o.status = some 50 := by rw [hs]; rfl
    obtain ⟨h1, _, _⟩ := core 50 h50
    rw [h1]
    refine ⟨rfl, ?_⟩
    show round2 (o.total * (((50 : ℤ) : ℚ) / 100)) = round2 (o.total * (50 / 100))
    norm_num
  · intro hs
    unfold cancel_order
    rw [h]
    dsimp only []
    rw [if_neg hne, if_neg hcap']
    have hnone : refundPercentage o.status = Option.none := by
      rcases hs with hs | hs | hs | hs <;> rw [hs] <;> rfl
    rw [hnone]
    exact ⟨rfl, rfl⟩

/-- A PENDING order with total 28.80 owned by `"cust"`. -/
def pendingOrder : Order :=
  { id := "o2", customer_id := "cust", total := 144 / 5, status := .pending,
    status_history := [⟨.pending, ""⟩],
    items := [{ id := "L1", menu_item_id := "X", quantity := 2 }] }

def stPending : Storage := { orders := [("o2", pendingOrder)] }

/-- Witness for C4: cancelling the stored PENDING order refunds its
full total 28.80. -/
theorem C4_witness :
    (cancel_order stPending "o2" "cust" "changed my mind").1.success = true
      ∧ (cancel_order stPending "o2" "cust" "changed my mind").1.refund = 144 / 5 := by
  have h := C4_cancel_order stPending "o2" "cust" "changed my mind" pendingOrder
    (by unfold stPending Storage.get_order; simp [alookup])
    (by unfold pendingOrder; rfl)
    (by unfold stPending Storage.get_customer_cancellations; simp [alookup])
    (by unfold pendingOrder; dsimp only []
        rw [round2_of_int _ 2880 (by norm_num)]; norm_num)
  have h1 := h.1 (Or.inl (by unfold pendingOrder; rfl))
  exact ⟨h1.1, h1.2⟩

-- ==================== Loyalty points at placement (claim C5) ====================

theorem pyInt_of_nonneg (q : ℚ) (h : 0 ≤ q) : pyInt q = ⌊q⌋ := if_pos h

/-- Claim C5: when the customer exists with balance at least the
requested points, `place_order` applies a points discount of
`min(points × 0.01, cart.total × 0.5)` — never more than 50% of the
cart total — sets the order total to `round2 (cart.total − discount)`,
adds the discount to the order's discount amount, and records
`loyalty_points_used` as the floor of `discount / 0.01`, not the raw
requested count. -/
theorem C5_loyalty_points (st : Storage) (cart_id cid : String) (addr : Address)
    (pm : String) (pts hour : ℤ) (noid onum : String) (cart : Cart) (cust : Customer)
    (o : Order)
    (hcart : st.get_cart cart_id = some cart)
    (hcust : st.get_customer cid = some cust)
    (hpts : 0 < pts) (hbal : pts ≤ cust.loyalty_points)
    (htot : 0 ≤ cart.total)
    (ho : (place_order st cart_id cid (some addr) pm pts hour noid onum).1.order = some o) :
    o.total = round2 (cart.total - min ((pts : ℚ) * (1 / 100)) (cart.total * (1 / 2)))
      ∧ o.loyalty_points_used
          = ⌊(min ((pts : ℚ) * (1 / 100)) (cart.total * (1 / 2))) / (1 / 100)⌋
      ∧ min ((pts : ℚ) * (1 / 100)) (cart.total * (1 / 2)) ≤ cart.total * (1 / 2)
      ∧ o.discount_amount
          = cart.discount_amount + min ((pts : ℚ) * (1 / 100)) (cart.total * (1 / 2)) := by
  have hd0 : 0 ≤ min ((pts : ℚ) * (1 / 100)) (cart.total * (1 / 2)) :=
    le_min (mul_nonneg (by exact_mod_cast hpts.le) (by norm_num))
      (mul_nonneg htot (by norm_num))
  unfold place_order at ho
  rw [hcart, hcust] at ho
  iterate 16 (all_goals (try simp only [] at ho); all_goals try split at ho)
  all_goals simp_all
  rw [← ho]
  have hq0 : (0 : ℚ) ≤ min ((pts : ℚ) * 100⁻¹) (cart.total * 2⁻¹) * 100 :=
    mul_nonneg (le_min (mul_nonneg (by exact_mod_cast hpts.le) (by norm_num))
      (mul_nonneg htot (by norm_num))) (by norm_num)
  exact ⟨rfl, pyInt_of_nonneg _ hq0, rfl⟩

-- Concrete successful placement used by several witnesses.

def itemEMenu : MenuItem := { id := "X", name := "Pizza", price := 12, stock_quantity := 10 }

def itemE : CartItem :=
  { id := "L1", menu_item_id := "X", quantity := 2, unit_price := 12, line_total := 24 }

def addrE : Address := { delivery_zone := .zone1 }

def cartE : Cart :=
  { id := "c", items := [itemE], subtotal := 24, tax_amount := 24 / 5, total := 144 / 5 }

def custE : Customer := { id := "cust", loyalty_points := 5000 }

def stE : Storage :=
  { menu_items := [("X", itemEMenu)], customers := [("cust", custE)],
    carts := [("c", cartE)] }

/-- The order `place_order stE "c" "cust" (some addrE) "card" 5000 12
"O1" "N1"` produces: the 50.00 worth of requested points is capped at
50% of the 28.80 total, so discount 14.40, total 14.40, points used
1440, estimate 30 + 10 = 40 minutes. -/
def orderE : Order :=
  { id := "O1", order_number := "N1", customer_id := "cust",
    items := [itemE], delivery_address := some addrE, subtotal := 24,
    discount_amount := 72 / 5, tax_amount := 24 / 5,
    total := 72 / 5, loyalty_points_used := 1440,
    status := .pending, status_history := [⟨.pending, ""⟩],
    payment_method := "card", estimated_delivery_minutes := 40 }

theorem placeE_eval :
    (place_order stE "c" "cust" (some addrE) "card" 5000 12 "O1" "N1").1.order
      = some orderE := by
  have hmin : min ((5000 : ℚ) * (1 / 100)) ((144 / 5) * (1 / 2)) = 72 / 5 := by
    rw [min_def]
    norm_num
  have hmin2 : min ((5000 : ℚ) * 100⁻¹) ((144 / 5) * 2⁻¹) = 72 / 5 := by
    rw [min_def]
    norm_num
  have hr : round2 ((144 / 5 : ℚ) - 72 / 5) = 72 / 5 := by
    rw [round2_of_int _ 1440 (by norm_num)]
    norm_num
  have hr2 : round2 ((72 / 5 : ℚ)) = 72 / 5 := by
    rw [round2_of_int _ 1440 (by norm_num)]
    norm_num
  have hp : pyInt ((72 / 5 : ℚ) / (1 / 100)) = 1440 := by
    rw [pyInt_of_int _ 1440 (by norm_num)]
  have hp2 : pyInt ((72 / 5 : ℚ) * 100) = 1440 := by
    rw [pyInt_of_int _ 1440 (by norm_num)]
  have hp3 : pyInt ((1440 : ℚ)) = 1440 := by
    rw [pyInt_of_int _ 1440 (by norm_num)]
  have hz : (DeliveryZone.zone1 = DeliveryZone.outOfRange) = False := by
    simp only [eq_iff_iff, iff_false]
    exact fun hh => DeliveryZone.noConfusion hh
  norm_num [place_order, validateItems, Storage.get_cart, Storage.get_customer,
    Storage.get_menu_item, estimateDeliveryMinutes, omZoneMinutes,
    stE, cartE, custE, itemE, itemEMenu, addrE, alookup, orderE,
    Int.fdiv, hz, hmin, hmin2, hr, hr2, hp, hp2, hp3]

/-- Witness for C5: the Scenario E instance of `C5_loyalty_points`. -/
theorem C5_witness :
    orderE.total
        = round2 (cartE.total - min ((5000 : ℚ) * (1 / 100)) (cartE.total * (1 / 2)))
      ∧ orderE.loyalty_points_used
          = ⌊(min ((5000 : ℚ) * (1 / 100)) (cartE.total * (1 / 2))) / (1 / 100)⌋
      ∧ min ((5000 : ℚ) * (1 / 100)) (cartE.total * (1 / 2)) ≤ cartE.total * (1 / 2)
      ∧ orderE.discount_amount
          = cartE.discount_amount + min ((5000 : ℚ) * (1 / 100)) (cartE.total * (1 / 2)) :=
  C5_loyalty_points stE "c" "cust" addrE "card" 5000 12 "O1" "N1" cartE custE orderE
    (by unfold stE Storage.get_cart; simp [alookup])
    (by unfold stE Storage.get_customer; simp [alookup])
    (by norm_num)
    (by unfold custE; norm_num)
    (by unfold cartE; norm_num)
    placeE_eval

-- ==================== Failure atomicity of place_order (claim C6) ====================

/-- Claim C6: whenever `place_order` fails — empty/missing cart, below
minimum subtotal, missing address, out-of-range zone, item
missing/unavailable/under-stocked, or restaurant closed — the returned
storage equals the input storage: no stock was reserved, no order
persisted, and the cart is untouched, since every validation happens
before the first mutation. -/
theorem C6_place_order_failure_frame (st : Storage) (cart_id cid : String)
    (addr : Option Address) (pm : String) (pts hour : ℤ) (noid onum : String)
    (res : OrderRes) (st2 : Storage)
    (hpo : place_order st cart_id cid addr pm pts hour noid onum = (res, st2))
    (h : res.success = false) : st2 = st := by
  unfold place_order at hpo
  iterate 16 (all_goals (try simp only [] at hpo); all_goals try split at hpo)
  all_goals simp_all
  all_goals simp [← hpo.1] at h

theorem C6_failing_eval :
    place_order stE "nocart" "cust" (some addrE) "card" 0 12 "O9" "N9"
      = (⟨false, Option.none, some ("Cart is empty")⟩, stE) := by
  unfold place_order Storage.get_cart
  simp [stE, alookup]

/-- Witness for C6: a `place_order` call on an absent cart fails and
returns the storage unchanged. -/
theorem C6_witness :
    (⟨false, Option.none, some ("Cart is empty")⟩ : OrderRes).success = false
      ∧ stE = stE :=
  ⟨rfl, C6_place_order_failure_frame stE "nocart" "cust" (some addrE) "card" 0 12
    "O9" "N9" ⟨false, Option.none, some ("Cart is empty")⟩ stE C6_failing_eval rfl⟩

-- ==================== Cart merging (claim C7) ====================

/-- Guest line for item `"X"` with an extra added (customization A). -/
def custGuestLine : CartItem :=
  { id := "G1", menu_item_id := "X", quantity := 1,
    customization := { extras := ["olives"] }, unit_price := 13, line_total := 13 }

/-- Customer line for the same item `"X"` with no extras
(customization B, different from A). -/
def custCustomerLine : CartItem :=
  { id := "C1", menu_item_id := "X", quantity := 1,
    customization := {}, unit_price := 12, line_total := 12 }

def guestCart7 : Cart := { id := "g", items := [custGuestLine] }

def customerCart7 : Cart := { id := "c", items := [custCustomerLine] }

def st7 : Storage := { carts := [("g", guestCart7), ("c", customerCart7)] }

/-- Claim C7 counterexample: the two lines carry the same item id but
different customizations (`_same_customization` rejects them), yet
`merge_carts` folds them into a single line — quantities are summed by
item id alone, not by the (item id, customization) pair. -/
theorem C7_counterexample :
    sameCustomization (some custGuestLine.customization)
        (some custCustomerLine.customization) = false
      ∧ ((merge_carts st7 "g" "c").1.cart.map (fun c => c.items.length)) = some 1 := by
  constructor
  · rfl
  · unfold merge_carts Storage.get_cart Storage.save_cart Storage.delete_cart
    simp [st7, guestCart7, customerCart7, custGuestLine, custCustomerLine, alookup,
          updateFirst, recalculateCart, qsum]

/-- Claim C7 (amended): `merge_carts` with both carts present sums
line-item quantities keyed by item id alone — a guest line whose item id
matches a customer line is folded into the first such line, which keeps
its own customization, with quantity `min (sum, 99)` — while an absent
guest cart is a no-op returning the customer cart and an absent customer
cart re-keys the guest cart under the customer cart id. -/
theorem C7_merge_carts :
    (∀ st g c, st.get_cart g = Option.none →
        (merge_carts st g c).1.cart = st.get_cart c ∧ (merge_carts st g c).2 = st)
    ∧ (∀ st g c gc, st.get_cart g = some gc → st.get_cart c = Option.none →
        (merge_carts st g c).1.cart = some { gc with id := c }
          ∧ (merge_carts st g c).2 = st.save_cart { gc with id := c })
    ∧ (∀ st g c gc cc gi ci, st.get_cart g = some gc → st.get_cart c = some cc →
        gc.items = [gi] → cc.items = [ci] → gi.menu_item_id = ci.menu_item_id →
        ((merge_carts st g c).1.cart.map Cart.items)
          = some [{ ci with
                    quantity := min (ci.quantity + gi.quantity) 99,
                    line_total := ci.unit_price * min (ci.quantity + gi.quantity) 99 }])
    ∧ (∀ st g c gc cc gi ci, st.get_cart g = some gc → st.get_cart c = some cc →
        gc.items = [gi] → cc.items = [ci] → gi.menu_item_id ≠ ci.menu_item_id →
        ((merge_carts st g c).1.cart.map Cart.items) = some [ci, gi]) := by
  refine ⟨?_, ?_, ?_, ?_⟩
  · intro st g c hg
    unfold merge_carts
    rw [hg]
    exact ⟨rfl, rfl⟩
  · intro st g c gc hg hc
    unfold merge_carts
    rw [hg, hc]
    exact ⟨rfl, rfl⟩
  · intro st g c gc cc gi ci hg hc hgi hci hid
    unfold merge_carts
    rw [hg, hc]
    dsimp only []
    rw [hgi, hci]
    have hb : (ci.menu_item_id == gi.menu_item_id) = true := by
      simp [hid]
    simp [hb, updateFirst, recalculateCart]
    exact hid.symm
  · intro st g c gc cc gi ci hg hc hgi hci hid
    unfold merge_carts
    rw [hg, hc]
    dsimp only []
    rw [hgi, hci]
    have hb : (ci.menu_item_id == gi.menu_item_id) = false := by
      simp
      exact fun hh => hid hh.symm
    simp [hb, updateFirst, recalculateCart]
    exact fun hh => hid hh.symm

/-- Witness for C7: its no-op branch on a storage with no guest cart. -/
theorem C7_witness :
    (merge_carts stE "missing" "c").1.cart = stE.get_cart "c"
      ∧ (merge_carts stE "missing" "c").2 = stE :=
  C7_merge_carts.1 stE "missing" "c"
    (by unfold stE Storage.get_cart; simp [alookup])

-- ==================== add_to_cart validation order (claim C8) ====================

def stEmpty : Storage := {}

/-- Claim C8 counterexample: on an empty (absent) cart, quantity 100 —
outside [1, 99] — is reported as the cart-size error "Max 50 items",
not as the invalid-quantity error, because the size check
`total_items + quantity > 50` runs first. -/
theorem C8_counterexample :
    (add_to_cart stEmpty "c1" "i1" 100 Option.none "" 0 720 "L1").1.error
        = some ("Max 50 items")
      ∧ (add_to_cart stEmpty "c1" "i1" 100 Option.none "" 0 720 "L1").1.error
          ≠ some ("Invalid quantity (1-99)") := by
  have he : (add_to_cart stEmpty "c1" "i1" 100 Option.none "" 0 720 "L1").1.error
      = some ("Max 50 items") := by
    unfold add_to_cart Storage.get_cart
    norm_num [stEmpty, alookup]
  refine ⟨he, ?_⟩
  rw [he]
  simp

/-- Claim C8 (amended): the cart-size check precedes quantity
validation: whenever the summed cart quantity plus the requested
quantity exceeds 50 the call fails with "Max 50 items" (even when the
quantity itself is outside [1, 99]), and the invalid-quantity error is
reported exactly when the summed quantity stays within 50 but the
requested quantity is outside [1, 99]; in both cases the storage is
unchanged. -/
theorem C8_add_to_cart_validation (st : Storage) (cid iid : String) (q : ℤ)
    (cu : Option ItemCustomization) (n : String) (d t : ℤ) (lid : String) :
    (50 < ((((st.get_cart cid).getD { id := cid }).items.map
          (fun ci => ci.quantity)).foldl (· + ·) 0) + q →
        (add_to_cart st cid iid q cu n d t lid).1
            = ⟨false, Option.none, some ("Max 50 items")⟩
          ∧ (add_to_cart st cid iid q cu n d t lid).2 = st)
    ∧ (((((st.get_cart cid).getD { id := cid }).items.map
          (fun ci => ci.quantity)).foldl (· + ·) 0) + q ≤ 50 → (q < 1 ∨ 99 < q) →
        (add_to_cart st cid iid q cu n d t lid).1
            = ⟨false, Option.none, some ("Invalid quantity (1-99)")⟩
          ∧ (add_to_cart st cid iid q cu n d t lid).2 = st) := by
  constructor
  · intro hgt
    unfold add_to_cart
    simp only []
    rw [if_pos hgt]
    exact ⟨rfl, rfl⟩
  · intro hle hq
    unfold add_to_cart
    simp only []
    rw [if_neg (by omega), if_pos hq]
    exact ⟨rfl, rfl⟩

/-- Witness for C8: quantity 0 on the empty cart stays within the size
cap, so the invalid-quantity error is reported and nothing changes. -/
theorem C8_witness :
    (add_to_cart stEmpty "c1" "i1" 0 Option.none "" 0 720 "L1").1
        = ⟨false, Option.none, some ("Invalid quantity (1-99)")⟩
      ∧ (add_to_cart stEmpty "c1" "i1" 0 Option.none "" 0 720 "L1").2 = stEmpty :=
  (C8_add_to_cart_validation stEmpty "c1" "i1" 0 Option.none "" 0 720 "L1").2
    (by unfold stEmpty Storage.get_cart; simp [alookup])
    (by norm_num)

-- ==================== Delivery estimate at placement (claim C9) ====================

/-- Claim C9 counterexample: the successful Scenario E placement (2
items, zone 1, 12 o'clock, empty queue, no peak, no bad weather) stores
a 40-minute estimate, while the claimed step-function formula — the one
`PaymentDeliveryManager.estimate_delivery_time` implements — gives
15 + 10 = 25 minutes under the same conditions. -/
theorem C9_counterexample :
    ((place_order stE "c" "cust" (some addrE) "card" 5000 12 "O1" "N1").1.order.map
        Order.estimated_delivery_minutes) = some 40
      ∧ (pdm_estimate_delivery_time 2 .zone1 0 12).min_minutes = 25
      ∧ (40 : ℤ) ≠ 25 := by
  refine ⟨?_, ?_, by norm_num⟩
  · rw [placeE_eval]
    rfl
  · rfl

/-- Claim C9 (amended): the estimate stored by `place_order` is
30 + 5 × (totalQuantity // 3) + zoneTravel(zone) + (15 during the
18–21 peak window), with zone travel 10/20/30 minutes for zones 1–3 and
15 otherwise — not the step-function formula; that formula (base prep
≤3→15, ≤6→25, ≤10→35, else 45, plus zone travel, 5 minutes per queued
order, peak and weather surcharges, displayed range [estimate,
estimate+15]) belongs to `PaymentDeliveryManager.estimate_delivery_time`,
which order placement does not invoke. -/
theorem C9_placement_estimate :
    (∀ st cart_id cid addr pm pts hour noid onum o,
        (place_order st cart_id cid addr pm pts hour noid onum).1.order = some o →
        o.estimated_delivery_minutes
          = 30 + (Int.fdiv ((o.items.map (fun ci => ci.quantity)).foldl (· + ·) 0) 3) * 5
            + (match o.delivery_address with
               | some a => omZoneMinutes a.delivery_zone
               | Option.none => 0)
            + (if 18 ≤ hour ∧ hour ≤ 21 then 15 else 0))
    ∧ (∀ size zone queue hour,
        (pdm_estimate_delivery_time size zone queue hour).max_minutes
          = (pdm_estimate_delivery_time size zone queue hour).min_minutes + 15) := by
  constructor
  · intro st cart_id cid addr pm pts hour noid onum o ho
    unfold place_order at ho
    iterate 16 (all_goals (try simp only [] at ho); all_goals try split at ho)
    all_goals simp_all
    all_goals rw [← ho]
    all_goals unfold estimateDeliveryMinutes
    all_goals dsimp only []
    all_goals by_cases hpk : 18 ≤ hour ∧ hour ≤ 21
    all_goals simp [hpk]
  · intro size zone queue hour
    rfl

/-- Witness for C9: the Scenario E instance of the placement-estimate
formula. -/
theorem C9_witness :
    orderE.estimated_delivery_minutes
      = 30 + (Int.fdiv ((orderE.items.map (fun ci => ci.quantity)).foldl (· + ·) 0) 3) * 5
        + (match orderE.delivery_address with
           | some a => omZoneMinutes a.delivery_zone
           | Option.none => 0)
        + (if 18 ≤ (12 : ℤ) ∧ (12 : ℤ) ≤ 21 then 15 else 0) :=
  C9_placement_estimate.1 stE "c" "cust" (some addrE) "card" 5000 12 "O1" "N1"
    orderE placeE_eval

-- ==================== Loyalty balance across place/cancel (claim C10) ====================

theorem reserve_fold_customers (l : List CartItem) (st : Storage) :
    (l.foldl (fun s ci => Storage.reserve_stock s ci.menu_item_id ci.quantity) st).customers
      = st.customers := by
  induction l generalizing st with
  | nil => rfl
  | cons hd tl ih =>
      rw [List.foldl_cons, ih]
      unfold Storage.reserve_stock
      split
      · rfl
      · rfl

theorem release_fold_customers (l : List CartItem) (st : Storage) :
    (l.foldl (fun s ci => Storage.release_stock s ci.menu_item_id ci.quantity) st).customers
      = st.customers := by
  induction l generalizing st with
  | nil => rfl
  | cons hd tl ih =>
      rw [List.foldl_cons, ih]
      unfold Storage.release_stock
      split
      · rfl
      · rfl

theorem clear_cart_customers (st : Storage) (cid : String) :
    (clear_cart st cid).2.customers = st.customers := by
  unfold clear_cart
  split
  · rfl
  · rfl

/-- Claim C10: `place_order` never touches the stored customers (so it
never deducts redeemed points); a successful `cancel_order` on an order
with positive `loyalty_points_used` adds those points back to the
matching customer; composing the two, placing an order that redeems
points and then cancelling it strictly increases the customer's
balance. -/
theorem C10_loyalty_balance :
    (∀ st cart_id cid addr pm pts hour noid onum,
        (place_order st cart_id cid addr pm pts hour noid onum).2.customers
          = st.customers)
    ∧ (∀ st oid cid reason o cust,
        st.get_order oid = some o →
        st.get_customer cid = some cust →
        cust.id = cid →
        0 < o.loyalty_points_used →
        (cancel_order st oid cid reason).1.success = true →
        (cancel_order st oid cid reason).2.get_customer cid
          = some { cust with
                   loyalty_points := cust.loyalty_points + o.loyalty_points_used })
    ∧ (∀ st cart_id cid addr pm pts hour noid onum res1 st1 o oid reason cust,
        place_order st cart_id cid addr pm pts hour noid onum = (res1, st1) →
        res1.order = some o →
        st.get_customer cid = some cust →
        cust.id = cid →
        0 < o.loyalty_points_used →
        st1.get_order oid = some o →
        (cancel_order st1 oid cid reason).1.success = true →
        (cancel_order st1 oid cid reason).2.get_customer cid
            = some { cust with
                     loyalty_points := cust.loyalty_points + o.loyalty_points_used }
          ∧ cust.loyalty_points < cust.loyalty_points + o.loyalty_points_used) := by
  have hplace : ∀ st cart_id cid addr pm pts hour noid onum,
      (place_order st cart_id cid addr pm pts hour noid onum).2.customers
        = st.customers := by
    intro st cart_id cid addr pm pts hour noid onum
    unfold place_order
    iterate 16 (all_goals (try simp only []); all_goals try split)
    all_goals rw [clear_cart_customers]
    all_goals exact reserve_fold_customers _ _
  have hcancel : ∀ st oid cid reason o cust,
      st.get_order oid = some o →
      st.get_customer cid = some cust →
      cust.id = cid →
      0 < o.loyalty_points_used →
      (cancel_order st oid cid reason).1.success = true →
      (cancel_order st oid cid reason).2.get_customer cid
        = some { cust with
                 loyalty_points := cust.loyalty_points + o.loyalty_points_used } := by
    intro st oid cid reason o cust h hcust hcid hused hsucc
    unfold cancel_order at hsucc ⊢
    rw [h] at hsucc ⊢
    dsimp only [] at hsucc ⊢
    by_cases h1 : o.customer_id ≠ cid
    · rw [if_pos h1] at hsucc
      simp at hsucc
    · rw [if_neg h1] at hsucc ⊢
      by_cases h2 : 3 ≤ st.get_customer_cancellations cid
      · rw [if_pos h2] at hsucc
        simp at hsucc
      · rw [if_neg h2] at hsucc ⊢
        rcases hrp : refundPercentage o.status with _ | pct
        · rw [hrp] at hsucc
          simp at hsucc
        · dsimp only []
          have hst1 :
              (o.items.foldl
                (fun s ci => Storage.release_stock s ci.menu_item_id ci.quantity)
                st).get_customer cid = some cust := by
            unfold Storage.get_customer
            rw [release_fold_customers]
            exact hcust
          rw [if_pos hused, hst1]
          unfold Storage.get_customer Storage.log_cancellation Storage.save_order
            Storage.save_customer
          dsimp only []
          rw [hcid]
          exact alookup_aset_self _ _ _
  refine ⟨hplace, hcancel, ?_⟩
  intro st cart_id cid addr pm pts hour noid onum res1 st1 o oid reason cust
    hpl ho hcust hcid hused hord hsucc
  have hcust1 : st1.get_customer cid = some cust := by
    unfold Storage.get_customer
    have := hplace st cart_id cid addr pm pts hour noid onum
    rw [hpl] at this
    dsimp only [] at this
    rw [this]
    exact hcust
  exact ⟨hcancel st1 oid cid reason o cust hord hcust1 hcid hused hsucc, by omega⟩

/-- The menu item after the Scenario E placement reserved 2 units. -/
def itemEMenu8 : MenuItem := { itemEMenu with stock_quantity := 8 }

/-- The Scenario E cart after `place_order` cleared it. -/
def clearedCartE : Cart :=
  { cartE with items := [], subtotal := 0, tax_amount := 0, total := 0,
               discount_amount := 0 }

/-- Full state after the Scenario E placement. -/
def st1E : Storage :=
  { menu_items := [("X", itemEMenu8)], customers := [("cust", custE)],
    orders := [("O1", orderE)], carts := [("c", clearedCartE)] }

theorem placeE_full :
    place_order stE "c" "cust" (some addrE) "card" 5000 12 "O1" "N1"
      = (⟨true, some orderE, Option.none⟩, st1E) := by
  have hmin : min ((5000 : ℚ) * (1 / 100)) ((144 / 5) * (1 / 2)) = 72 / 5 := by
    rw [min_def]
    norm_num
  have hmin2 : min ((5000 : ℚ) * 100⁻¹) ((144 / 5) * 2⁻¹) = 72 / 5 := by
    rw [min_def]
    norm_num
  have hr : round2 ((144 / 5 : ℚ) - 72 / 5) = 72 / 5 := by
    rw [round2_of_int _ 1440 (by norm_num)]
    norm_num
  have hr2 : round2 ((72 / 5 : ℚ)) = 72 / 5 := by
    rw [round2_of_int _ 1440 (by norm_num)]
    norm_num
  have hp : pyInt ((72 / 5 : ℚ) / (1 / 100)) = 1440 := by
    rw [pyInt_of_int _ 1440 (by norm_num)]
  have hp2 : pyInt ((72 / 5 : ℚ) * 100) = 1440 := by
    rw [pyInt_of_int _ 1440 (by norm_num)]
  have hp3 : pyInt ((1440 : ℚ)) = 1440 := by
    rw [pyInt_of_int _ 1440 (by norm_num)]
  have hz : (DeliveryZone.zone1 = DeliveryZone.outOfRange) = False := by
    simp only [eq_iff_iff, iff_false]
    exact fun hh => DeliveryZone.noConfusion hh
  norm_num [place_order, validateItems, Storage.get_cart, Storage.get_customer,
    Storage.get_menu_item, Storage.save_menu_item, Storage.save_order,
    Storage.save_cart, Storage.reserve_stock, clear_cart, estimateDeliveryMinutes,
    omZoneMinutes, stE, st1E, cartE, custE, itemE, itemEMenu, itemEMenu8,
    clearedCartE, addrE, alookup, aset, orderE,
    Int.fdiv, hz, hmin, hmin2, hr, hr2, hp, hp2, hp3]

theorem cancelE_success :
    (cancel_order st1E "O1" "cust" "changed").1.success = true := by
  unfold cancel_order Storage.get_order Storage.get_customer_cancellations
  simp [st1E, orderE, alookup, refundPercentage]

/-- Witness for C10: the Scenario E order redeems 1440 points; placing
and then cancelling it raises the customer's balance from 5000 to
6440. -/
theorem C10_witness :
    (cancel_order st1E "O1" "cust" "changed").2.get_customer "cust"
        = some { custE with
                 loyalty_points := custE.loyalty_points + orderE.loyalty_points_used }
      ∧ custE.loyalty_points < custE.loyalty_points + orderE.loyalty_points_used :=
  C10_loyalty_balance.2.2 stE "c" "cust" (some addrE) "card" 5000 12 "O1" "N1"
    ⟨true, some orderE, Option.none⟩ st1E orderE "O1" "changed" custE
    placeE_full
    rfl
    (by unfold stE Storage.get_customer; simp [alookup])
    (by unfold custE; rfl)
    (by unfold orderE; norm_num)
    (by unfold st1E Storage.get_order; simp [alookup])
    cancelE_success

end Takeaway
